import Mathlib

/-!
Shallow embedding of the Lumitec Poco CAN protocol codec and session layer
(files poco_can/poco_can_protocol.py and poco_can/poco_can_interface.py).

Python integers are modelled as Int where a function can receive negative
values, and as Nat where the source only ever handles non-negative values.
The Python expression v & 0xFF on an arbitrary int equals v mod 256
(non-negative remainder), which is Int.emod here.  struct.pack with format
character B raises struct.error when the argument is outside 0..255; this
is modelled by packB returning Except.  Functions that can raise return
Except PyError, pure total functions return plain values.
-/

namespace PocoCan

/-- Python exception classes that the modelled code can raise. -/
inductive PyError where
  | typeError
  | valueError
  | structError
deriving DecidableEq, Repr

deriving instance DecidableEq for Except

/-- Model of struct.pack format B for one argument: a value outside 0..255
raises struct.error. -/
def packB (v : Int) : Except PyError Nat :=
  if 0 ≤ v ∧ v ≤ 255 then .ok v.toNat else .error .structError

/-- Python mask v & 0xFF on an arbitrary int: equals the non-negative
remainder v mod 256. -/
def mask8 (v : Int) : Int := v % 256

-- Constants from poco_can_protocol.py
def NMEA2K_MANUFACTURER_LUMITEC : Nat := 1512
def NMEA2K_INDUSTRY_MARINE : Nat := 4
def PGN_PROPRIETARY_SINGLE_FRAME : Nat := 61184
def PGN_BINARY_SWITCH_STATUS : Nat := 127501
def PGN_BINARY_SWITCH_CONTROL : Nat := 127502

/-- encode_proprietary_header: byte0-1 little-endian u16 =
manufacturer(11b) or reserved bits 11 at positions 11-12 or industry(3b)
at positions 13-15; byte2 = proprietary id.  All call sites pass the fixed
constants and an enum PID below 256, so the struct.pack range checks of
format <HB never fire and are elided here. -/
def encode_proprietary_header (manufacturer_code industry_code proprietary_id : Nat) :
    List Nat :=
  let proprietary_info :=
    (manufacturer_code &&& 0x7FF) ||| (3 <<< 11) ||| ((industry_code &&& 0x07) <<< 13)
  [proprietary_info &&& 0xFF, (proprietary_info >>> 8) &&& 0xFF, proprietary_id]

/-- Shared tail of the VSw encoders (source helper of the same name):
header for the given PID followed by struct.pack of five byte fields, any
of which raises struct.error when outside 0..255. -/
def pack_vsw_common (prop_id : Nat) (act_id sw_id byte5 byte6 byte7 : Int) :
    Except PyError (List Nat) := do
  let header := encode_proprietary_header NMEA2K_MANUFACTURER_LUMITEC
      NMEA2K_INDUSTRY_MARINE prop_id
  let b3 ← packB act_id
  let b4 ← packB sw_id
  let b5 ← packB byte5
  let b6 ← packB byte6
  let b7 ← packB byte7
  return header ++ [b3, b4, b5, b6, b7]

/-- encode_vsw_simple_action: PID 1, byte3 = action, byte4 = switch id
(passed through unmasked), bytes 5-7 = 0xFF. -/
def encode_vsw_simple_action (switch_id : Int) (action_id : Nat) :
    Except PyError (List Nat) :=
  pack_vsw_common 1 action_id switch_id 0xFF 0xFF 0xFF

/-- encode_vsw_hsb: PID 3.  Every data field is masked with & 0xFF at the
call into the packer (no range clamping in the source). -/
def encode_vsw_hsb (switch_id : Int) (action : Nat) (hue saturation brightness : Int) :
    Except PyError (List Nat) :=
  pack_vsw_common 3 action (mask8 switch_id) (mask8 hue) (mask8 saturation)
    (mask8 brightness)

/-- encode_vsw_custom_rgb: PID 5, action T2RGB = 11, fields masked & 0xFF. -/
def encode_vsw_custom_rgb (switch_id red green blue : Int) :
    Except PyError (List Nat) :=
  pack_vsw_common 5 11 (mask8 switch_id) (mask8 red) (mask8 green) (mask8 blue)

/-- encode_vsw_delta_brightness: PID 6, action T2BD = 5.  The source clamps
delta to -128..127 and then passes the possibly negative clamped value
directly to struct.pack format B, without the two of-complement conversion
its sibling encode_outch_pli_t2bd performs. -/
def encode_vsw_delta_brightness (switch_id delta : Int) :
    Except PyError (List Nat) :=
  let delta' := max (-128) (min 127 delta)
  pack_vsw_common 6 5 (mask8 switch_id) delta' 0xFF 0xFF

/-- Shared tail of the PLI channel encoders (source helper _pack_pli_common):
channel, clan and transition are clamped to their ranges with max/min, then
masked and packed. -/
def pack_pli_common (prop_id : Nat) (chan clan trans byte6 byte7 : Int) :
    Except PyError (List Nat) := do
  let chan' := max 0 (min 4 chan)
  let clan' := max 0 (min 63 clan)
  let trans' := max 0 (min 7 trans)
  let header := encode_proprietary_header NMEA2K_MANUFACTURER_LUMITEC
      NMEA2K_INDUSTRY_MARINE prop_id
  let b3 ← packB chan'
  let b4 ← packB (clan' % 64)
  let b5 ← packB (trans' % 8)
  let b6 ← packB byte6
  let b7 ← packB byte7
  return header ++ [b3, b4, b5, b6, b7]

/-- encode_outch_pli_t2hsb: PID 40; hue clamped to 0..255, saturation and
brightness clamped to 0..15, byte7 packs saturation in the low nibble and
brightness in the high nibble. -/
def encode_outch_pli_t2hsb (channel hue saturation brightness pli_clan transition : Int) :
    Except PyError (List Nat) :=
  let hue' := max 0 (min 255 hue)
  let saturation' := max 0 (min 15 saturation)
  let brightness' := max 0 (min 15 brightness)
  let byte6 := hue'
  let byte7 := (saturation' % 16) + (brightness' % 16) * 16
  pack_pli_common 40 channel pli_clan transition byte6 byte7

/-- One write of the loop inside encode_binary_switch_control: the i-th
2-bit tri-state is ORed into bit offset (i mod 4) * 2 of byte 1 + i / 4.
The 8-byte buffer is modelled as a total function from index to byte. -/
def bscWrite (switch_states : List Nat) (data : Nat → Nat) (i : Nat) : Nat → Nat :=
  fun k =>
    if k = 1 + i / 4 then
      data k ||| ((switch_states.getD i 0 &&& 0x03) <<< ((i % 4) * 2))
    else data k

/-- encode_binary_switch_control (PGN 127502): byte0 = bank & 0xFF, then
the loop packs min(28, len) 2-bit states, 4 per byte, into the
zero-initialised bytes 1..7; the result is the 8-byte buffer. -/
def encode_binary_switch_control (bank : Nat) (switch_states : List Nat) : List Nat :=
  let init : Nat → Nat := fun k => if k = 0 then bank &&& 0xFF else 0
  let final := (List.range (min 28 switch_states.length)).foldl (bscWrite switch_states) init
  (List.range 8).map final

/-- Reads the 2-bit tri-state field for switch i out of an encoded
PGN 127502 payload (byte 1 + i / 4, bits (i mod 4) * 2 and the next). -/
def triStateAt (data : List Nat) (i : Nat) : Nat :=
  (data.getD (1 + i / 4) 0 >>> ((i % 4) * 2)) &&& 0x03

/-- SwitchState as built by decode_vsw_state_response; the wall-clock
last_updated timestamp of the source is outside the model. -/
structure SwitchState where
  switch_id : Nat
  is_on : Bool
  color_type : Nat
  color_data_0 : Nat
  color_data_1 : Nat
  brightness : Nat
  hue : Nat
  saturation : Nat
  pocofx_id : Nat
  cct_kelvin : Nat
  mutex_index : Nat
deriving DecidableEq, Repr

/-- Field defaults assigned in the SwitchState constructor of the source. -/
def SwitchState.init : SwitchState :=
  { switch_id := 0, is_on := false, color_type := 0, color_data_0 := 0,
    color_data_1 := 0, brightness := 255, hue := 0, saturation := 255,
    pocofx_id := 0, cct_kelvin := 0, mutex_index := 0 }

/-- decode_vsw_state_response (PID 2): length check, then header check
(manufacturer, industry and PID all validated), then field extraction with
the convenience fields filled in depending on the color type. -/
def decode_vsw_state_response (data : List Nat) : Option SwitchState :=
  if data.length < 8 then none
  else
    let proprietary_info := data.getD 0 0 ||| (data.getD 1 0 <<< 8)
    let manufacturer := proprietary_info &&& 0x7FF
    let industry := (proprietary_info >>> 13) &&& 0x07
    let pid := data.getD 2 0
    if manufacturer ≠ NMEA2K_MANUFACTURER_LUMITEC ∨ industry ≠ NMEA2K_INDUSTRY_MARINE ∨
        pid ≠ 2 then none
    else
      let status_and_type := data.getD 4 0
      let status_flags := status_and_type &&& 0x0F
      let color_type := (status_and_type >>> 4) &&& 0x0F
      let base : SwitchState :=
        { SwitchState.init with
          switch_id := data.getD 3 0
          is_on := status_flags &&& 0x01 ≠ 0
          color_type := color_type
          color_data_0 := data.getD 5 0
          color_data_1 := data.getD 6 0
          brightness := data.getD 7 0 }
      some (if color_type = 1 then
              { base with hue := base.color_data_0, saturation := base.color_data_1 }
            else if color_type = 3 then
              { base with pocofx_id := base.color_data_0 }
            else if color_type = 2 then
              { base with cct_kelvin := (base.color_data_1 <<< 8) ||| base.color_data_0 }
            else if color_type = 5 then
              { base with mutex_index := base.color_data_0 }
            else base)

/-- Decoded fields of decode_enumerate_response (PID 129). -/
structure DeviceInfo where
  device_id : Nat
  num_channels : Nat
  protocol_version : Nat
  expander_role : Bool
deriving DecidableEq, Repr

/-- decode_enumerate_response: only the length is checked; the proprietary
header bytes 0-2 are skipped without validation. -/
def decode_enumerate_response (data : List Nat) : Option DeviceInfo :=
  if data.length < 8 then none
  else
    some { device_id := data.getD 3 0 ||| (data.getD 4 0 <<< 8) ||| (data.getD 5 0 <<< 16)
           protocol_version := data.getD 6 0 &&& 0x0F
           num_channels := (data.getD 6 0 >>> 4) &&& 0x0F
           expander_role := data.getD 7 0 &&& 0x01 ≠ 0 }

/-- Decoded fields of decode_outch_status (PID 32). -/
structure ChannelStatus where
  channel : Nat
  mode : Nat
  output_level : Nat
  input_voltage_mv : Nat
  current_ma : Nat
  fault_flags : Nat
deriving DecidableEq, Repr

/-- decode_outch_status: raises ValueError when the payload is shorter than
8 bytes; the proprietary header bytes 0-2 are skipped without validation. -/
def decode_outch_status (data : List Nat) : Except PyError ChannelStatus :=
  if data.length < 8 then .error .valueError
  else
    .ok { channel := data.getD 3 0
          mode := data.getD 4 0 &&& 0x07
          fault_flags := data.getD 4 0 &&& 0xF8
          output_level := data.getD 5 0
          input_voltage_mv := data.getD 6 0 * 200
          current_ma := data.getD 7 0 * 100 }

/-- calculate_pgn_can_id, translated operation for operation from the
source (masks, PDU1/PDU2 branch, OR-assembly, extended-frame bit). -/
def calculate_pgn_can_id (pgn priority source_addr destination_addr : Nat) : Nat :=
  let pdu_format := (pgn >>> 8) &&& 0xFF
  let pdu_specific := pgn &&& 0xFF
  let data_page := (pgn >>> 16) &&& 0x01
  let ps := if pdu_format < 240 then destination_addr else pdu_specific
  let can_id := (priority &&& 0x07) <<< 26
  let can_id := can_id ||| ((data_page &&& 0x01) <<< 24)
  let can_id := can_id ||| ((pdu_format &&& 0xFF) <<< 16)
  let can_id := can_id ||| ((ps &&& 0xFF) <<< 8)
  let can_id := can_id ||| (source_addr &&& 0xFF)
  can_id ||| 0x80000000

/-! Session layer (poco_can_interface.py).  A session owns three caches,
modelled as insertion-ordered association lists exactly like Python dicts:
assignment replaces the value of an existing key in place and appends a
new key at the end.  Observer callbacks are modelled by the list of
notification events a dispatch emits; one event stands for the broadcast
of that notification to every registered callback (callback exceptions are
caught and swallowed by the source, so they never affect state). -/

/-- Python dict assignment on an association list. -/
def dictSet {α : Type} : List (Nat × α) → Nat → α → List (Nat × α)
  | [], k, v => [(k, v)]
  | (k', v') :: rest, k, v =>
      if k' = k then (k, v) :: rest else (k', v') :: dictSet rest k v

/-- Entry of the discovered-devices dict: the decoded DeviceInfo dict
augmented with the can_address key, as stored by _handle_message_impl. -/
structure StoredDevice where
  can_address : Nat
  info : DeviceInfo
deriving DecidableEq, Repr

/-- Caches owned by a session (base class plus the Level 1 subclass). -/
structure SessionState where
  switch_states : List (Nat × SwitchState)
  discovered_devices : List (Nat × StoredDevice)
  binary_switch_states : List (Nat × List Nat)
deriving DecidableEq, Repr

/-- Fresh session: every cache dict starts empty. -/
def SessionState.init : SessionState :=
  { switch_states := [], discovered_devices := [], binary_switch_states := [] }

/-- One observer notification fanned out to the registered callbacks. -/
inductive Event where
  | deviceDiscovered (can_address : Nat) (info : DeviceInfo)
  | switchState (switch_id : Nat) (state : SwitchState)
  | binaryBank (bank : Nat) (states : List Nat)
  | channelStatus (status : ChannelStatus)
deriving DecidableEq, Repr

/-- An inbound CAN frame as seen by _handle_message. -/
structure CanMsg where
  id : Nat
  data : List Nat
deriving DecidableEq, Repr

/-- Raw 18-bit PGN field of a CAN arbitration id. -/
def rawPgn (can_id : Nat) : Nat := (can_id >>> 8) &&& 0x3FFFF

/-- Source address byte of a CAN arbitration id. -/
def srcAddr (can_id : Nat) : Nat := can_id &&& 0xFF

/-- PGN normalisation of _handle_message_impl: for PDU1 (format byte
below 240) the low PS byte is masked out. -/
def normPgn (can_id : Nat) : Nat :=
  let raw := rawPgn can_id
  if (raw >>> 8) &&& 0xFF < 240 then raw &&& 0xFF00 else raw

/-- Subclass hook _handle_proprietary_message: reacts to a surviving
proprietary frame by emitting observer notifications; neither the base
class hook nor the Level 0 override touches any cache. -/
def Hook : Type := Nat → List Nat → Nat → List Event

/-- Base class hook: does nothing. -/
def baseHook : Hook := fun _ _ _ => []

/-- Level 0 hook: when the PID byte is OUTPUTCH_STATUS (32), decode the
status and notify the channel-status callbacks; a decode ValueError is
caught and logged. -/
def level0Hook : Hook := fun _pgn data _src =>
  if data.length ≥ 3 ∧ data.getD 2 0 = 32 then
    match decode_outch_status data with
    | .ok status => [Event.channelStatus status]
    | .error _ => []
  else []

/-- Post-filter body of _handle_message_impl: proprietary frames of at
least 8 bytes are dispatched on the PID byte (ENUMERATE_RESPONSE upserts
the discovered-devices dict and notifies, VSW_STATE replaces the cached
switch state and notifies), and every proprietary frame is additionally
passed to the subclass hook. -/
def processFrame (hook : Hook) (st : SessionState) (msg : CanMsg) :
    SessionState × List Event :=
  let src := srcAddr msg.id
  let pgn := normPgn msg.id
  let step1 : SessionState × List Event :=
    if pgn = PGN_PROPRIETARY_SINGLE_FRAME ∧ msg.data.length ≥ 8 then
      let pid := msg.data.getD 2 0
      if pid = 129 then
        match decode_enumerate_response msg.data with
        | some info =>
            ({ st with discovered_devices :=
                dictSet st.discovered_devices src ⟨src, info⟩ },
             [Event.deviceDiscovered src info])
        | none => (st, [])
      else if pid = 2 then
        match decode_vsw_state_response msg.data with
        | some state =>
            ({ st with switch_states := dictSet st.switch_states state.switch_id state },
             [Event.switchState state.switch_id state])
        | none => (st, [])
      else (st, [])
    else (st, [])
  if pgn = PGN_PROPRIETARY_SINGLE_FRAME then
    (step1.1, step1.2 ++ hook pgn msg.data src)
  else step1

/-- _handle_message_impl of the base class, parameterised over the
subclass hook and the target address (poco_address): the source-address
filter drops frames from a non-target source unless the session
broadcasts, with the enumerate-response carve-out. -/
def handleMessageImpl (hook : Hook) (poco_address : Nat) (st : SessionState)
    (msg : CanMsg) : SessionState × List Event :=
  if poco_address ≠ 0xFF ∧ srcAddr msg.id ≠ poco_address then
    if normPgn msg.id = PGN_PROPRIETARY_SINGLE_FRAME ∧ msg.data.length ≥ 3 then
      if msg.data.getD 2 0 ≠ 129 then (st, [])
      else processFrame hook st msg
    else (st, [])
  else processFrame hook st msg

/-- Decoding loop of PocoCANInterfaceLevel1._decode_binary_status: 28
2-bit fields starting at byte 1; bytes beyond the payload read as 3. -/
def decodeBinaryStates (data : List Nat) : List Nat :=
  (List.range 28).map fun i =>
    let byte_idx := 1 + i / 4
    if byte_idx ≥ data.length then 3
    else (data.getD byte_idx 0 >>> ((i % 4) * 2)) &&& 0x03

/-- PocoCANInterfaceLevel1._decode_binary_status: cache the bank states
and notify the binary callbacks (no-op on an empty payload). -/
def level1DecodeBinaryStatus (st : SessionState) (data : List Nat) :
    SessionState × List Event :=
  if data.length < 1 then (st, [])
  else
    let bank := data.getD 0 0
    let states := decodeBinaryStates data
    ({ st with binary_switch_states := dictSet st.binary_switch_states bank states },
     [Event.binaryBank bank states])

/-- PocoCANInterfaceLevel1._handle_message: run the base handler, then
process PGN 127501 frames - the raw (unnormalised) PGN is compared and
this stage runs outside the source-address filter of the base handler. -/
def level1HandleMessage (poco_address : Nat) (st : SessionState) (msg : CanMsg) :
    SessionState × List Event :=
  let r := handleMessageImpl baseHook poco_address st msg
  if rawPgn msg.id = PGN_BINARY_SWITCH_STATUS then
    let r2 := level1DecodeBinaryStatus r.1 msg.data
    (r2.1, r.2 ++ r2.2)
  else r

/-! Facade methods needed by the claims. -/

/-- Conversion loop of set_switch_bank: start from 28 entries of 3
(no change) and write 1 for True and 0 for False at keys 0..27. -/
def tristatesOfDict (switches : List (Nat × Option Bool)) : List Nat :=
  switches.foldl
    (fun acc p =>
      if p.1 ≤ 27 then
        match p.2 with
        | some true => acc.set p.1 1
        | some false => acc.set p.1 0
        | none => acc
      else acc)
    (List.replicate 28 3)

/-- Parameters of PocoCANInterfaceLevel1.send_binary_switch_control
besides self: bank and switch_states. -/
def send_binary_switch_control_params : Nat := 2

/-- Positional arguments set_switch_bank passes to it: bank,
switch_states and priority. -/
def set_switch_bank_call_args : Nat := 3

/-- PocoCANInterfaceLevel1.set_switch_bank: converts the switches dict to
the 28-entry tri-state list, then evaluates the call
self.send_binary_switch_control(bank, switch_states, priority).  The
callee accepts two arguments besides self but three are passed, so Python
raises TypeError before the callee body runs; the ok branch models what
the callee would have encoded. -/
def set_switch_bank (bank : Nat) (switches : List (Nat × Option Bool))
    (_priority : Nat) : Except PyError (List Nat) :=
  let switch_states := tristatesOfDict switches
  if set_switch_bank_call_args = send_binary_switch_control_params then
    .ok (encode_binary_switch_control bank switch_states)
  else .error .typeError

/-- PocoCANInterfaceLevel2.delta_brightness: validates the delta range
with ValueError, then encodes and sends; the payload handed to send is
returned. -/
def delta_brightness (switch_id delta : Int) : Except PyError (List Nat) :=
  if ¬(-128 ≤ delta ∧ delta ≤ 127) then .error .valueError
  else encode_vsw_delta_brightness switch_id delta

/-- Field extraction of one 2-bit tri-state out of the byte buffer while
it is still the function used inside encode_binary_switch_control. -/
def bufFieldAt (data : Nat → Nat) (i : Nat) : Nat :=
  (data (1 + i / 4) >>> ((i % 4) * 2)) &&& 0x03

/-! Helper lemmas about 2-bit field packing, shared by the theorems about
encode_binary_switch_control. -/

theorem and_three_eq_mod (x : Nat) : x &&& 3 = x % 4 := by
  simpa using Nat.and_pow_two_sub_one_eq_mod x 2

theorem testBit_of_lt_four (s k : Nat) (hs : s < 4) (hk : 2 ≤ k) : s.testBit k = false := by
  apply Nat.testBit_lt_two_pow
  calc s < 4 := hs
    _ = 2 ^ 2 := rfl
    _ ≤ 2 ^ k := Nat.pow_le_pow_right (by omega) hk

theorem shift_or_extract_ne (x s a b : Nat) (hs : s < 4) (hne : b ≠ a) :
    ((x ||| (s <<< (b * 2))) >>> (a * 2)) &&& 3 = (x >>> (a * 2)) &&& 3 := by
  rw [and_three_eq_mod, and_three_eq_mod, show (4:Nat) = 2^2 from rfl]
  apply Nat.eq_of_testBit_eq
  intro k
  simp only [Nat.testBit_mod_two_pow, Nat.testBit_shiftRight, Nat.testBit_or,
    Nat.testBit_shiftLeft]
  by_cases hk : k < 2
  · have : (decide (a * 2 + k ≥ b * 2) && s.testBit (a * 2 + k - b * 2)) = false := by
      rcases Nat.lt_or_ge b a with h | h
      · have h2 : 2 ≤ a * 2 + k - b * 2 := by omega
        simp [testBit_of_lt_four s _ hs h2]
      · have h2 : ¬(a * 2 + k ≥ b * 2) := by omega
        simp [h2]
    simp [hk, this]
  · simp [hk]

theorem shift_or_extract_self (x s k : Nat) (hs : s < 4) :
    ((x ||| (s <<< k)) >>> k) &&& 3 = ((x >>> k) &&& 3) ||| s := by
  rw [and_three_eq_mod, and_three_eq_mod, show (4:Nat) = 2^2 from rfl]
  apply Nat.eq_of_testBit_eq
  intro b
  simp only [Nat.testBit_mod_two_pow, Nat.testBit_shiftRight, Nat.testBit_or,
    Nat.testBit_shiftLeft]
  by_cases hb : b < 2
  · have h1 : k + b ≥ k := by omega
    have h2 : k + b - k = b := by omega
    simp [hb, h1, h2]
  · have : s.testBit b = false := testBit_of_lt_four s b hs (by omega)
    simp [hb, this]

theorem bufFieldAt_bscWrite_self (states : List Nat) (data : Nat → Nat) (i : Nat) :
    bufFieldAt (bscWrite states data i) i
      = bufFieldAt data i ||| (states.getD i 0 &&& 0x03) := by
  unfold bufFieldAt bscWrite
  rw [if_pos rfl]
  exact shift_or_extract_self _ _ _ (Nat.lt_succ_of_le Nat.and_le_right)

theorem bufFieldAt_bscWrite_ne (states : List Nat) (data : Nat → Nat) (i j : Nat)
    (hne : j ≠ i) :
    bufFieldAt (bscWrite states data j) i = bufFieldAt data i := by
  unfold bufFieldAt bscWrite
  by_cases hb : 1 + i / 4 = 1 + j / 4
  · rw [if_pos hb]
    exact shift_or_extract_ne _ _ _ _ (Nat.lt_succ_of_le Nat.and_le_right)
      (fun h => hne (by omega))
  · rw [if_neg hb]

theorem bufFieldAt_foldl (states : List Nat) (n : Nat) (data : Nat → Nat) (i : Nat) :
    bufFieldAt ((List.range n).foldl (bscWrite states) data) i
      = if i < n then bufFieldAt data i ||| (states.getD i 0 &&& 0x03)
        else bufFieldAt data i := by
  induction n generalizing data with
  | zero => simp
  | succ m ih =>
    rw [List.range_succ, List.foldl_append, List.foldl_cons, List.foldl_nil]
    by_cases him : i = m
    · subst him
      rw [bufFieldAt_bscWrite_self, ih data]
      simp
    · rw [bufFieldAt_bscWrite_ne states _ i m (fun h => him h.symm), ih data]
      have h2 : i < m + 1 ↔ i < m := by omega
      simp only [h2]

/-- Closed form of the tri-state field i of an encoded PGN 127502
payload: the list entry masked to 2 bits when the loop reached index i,
and the zero initialisation otherwise. -/
theorem triStateAt_encode (bank : Nat) (states : List Nat) (i : Nat) (hi : i < 28) :
    triStateAt (encode_binary_switch_control bank states) i
      = if i < min 28 states.length then states.getD i 0 &&& 0x03 else 0 := by
  unfold triStateAt encode_binary_switch_control
  have hidx : 1 + i / 4 < 8 := by omega
  rw [List.getD_eq_getElem?_getD, List.getElem?_map, List.getElem?_range hidx]
  show bufFieldAt _ i = _
  rw [bufFieldAt_foldl states _ _ i]
  have h0 : (1:Nat) + i / 4 ≠ 0 := by omega
  unfold bufFieldAt
  simp [h0]

/-- Claim C7: calculate_pgn_can_id equals the documented OR-assembly of
priority, data page, PDU format, PDU-specific byte and source address with
the extended-frame flag bit set, and the concrete invariants for
pgn 61184, priority 3, source 0, destination 0xFF hold. -/
theorem calculate_pgn_can_id_formula (pgn priority source_addr destination_addr : Nat)
    (hp : priority ≤ 7) (hs : source_addr ≤ 255) (hd : destination_addr ≤ 255) :
    calculate_pgn_can_id pgn priority source_addr destination_addr
      = priority <<< 26 ||| ((pgn >>> 16) &&& 0x01) <<< 24 |||
          ((pgn >>> 8) &&& 0xFF) <<< 16 |||
          (if (pgn >>> 8) &&& 0xFF < 240 then destination_addr else pgn &&& 0xFF) <<< 8 |||
          source_addr ||| 0x80000000
    ∧ (calculate_pgn_can_id 61184 3 0 0xFF >>> 26) &&& 0x07 = 3
    ∧ calculate_pgn_can_id 61184 3 0 0xFF &&& 0xFF = 0 := by
  refine ⟨?_, by decide, by decide⟩
  have h255 : ∀ x : Nat, x ≤ 255 → x &&& 255 = x := fun x hx => by
    simpa using Nat.and_pow_two_sub_one_of_lt_two_pow (x := x) (n := 8) (by omega)
  have h7 : priority &&& 7 = priority := by
    simpa using Nat.and_pow_two_sub_one_of_lt_two_pow (x := priority) (n := 3) (by omega)
  have h1 : ∀ x : Nat, x ≤ 1 → x &&& 1 = x := fun x hx => by
    simpa using Nat.and_pow_two_sub_one_of_lt_two_pow (x := x) (n := 1) (by omega)
  simp only [calculate_pgn_can_id]
  rw [h7, h255 (pgn >>> 8 &&& 255) Nat.and_le_right, h1 (pgn >>> 16 &&& 1) Nat.and_le_right,
    h255 source_addr hs]
  by_cases hc : (pgn >>> 8) &&& 255 < 240
  · rw [if_pos hc, h255 destination_addr hd]
  · rw [if_neg hc, h255 (pgn &&& 255) Nat.and_le_right]

theorem calculate_pgn_can_id_formula_witness :
    (calculate_pgn_can_id 61184 3 0 0xFF >>> 26) &&& 0x07 = 3 :=
  (calculate_pgn_can_id_formula 61184 3 0 0xFF (by decide) (by decide) (by decide)).2.1

/-- Claim C6 counterexample: an all-zero 8-byte payload has a header that
matches none of the expected constants, yet decode_enumerate_response
decodes it instead of returning None. -/
theorem decode_enumerate_response_ignores_header :
    decode_enumerate_response (List.replicate 8 0)
        = some { device_id := 0, num_channels := 0, protocol_version := 0,
                 expander_role := false }
    ∧ ((List.replicate 8 0).getD 0 0 ||| ((List.replicate 8 0).getD 1 0 <<< 8)) &&& 0x7FF
        ≠ NMEA2K_MANUFACTURER_LUMITEC := by
  refine ⟨rfl, by decide⟩

/-- Claim C6 amended: decode_vsw_state_response fails exactly on short
payloads or mismatched manufacturer, industry or PID;
decode_enumerate_response fails exactly on short payloads (no header
validation); decode_outch_status raises ValueError exactly on short
payloads (no header validation). -/
theorem decode_failure_characterisation :
    (∀ data : List Nat, decode_vsw_state_response data = none ↔
        (data.length < 8 ∨
          ¬((data.getD 0 0 ||| (data.getD 1 0 <<< 8)) &&& 0x7FF
                = NMEA2K_MANUFACTURER_LUMITEC ∧
              ((data.getD 0 0 ||| (data.getD 1 0 <<< 8)) >>> 13) &&& 0x07
                = NMEA2K_INDUSTRY_MARINE ∧
              data.getD 2 0 = 2)))
    ∧ (∀ data : List Nat, decode_enumerate_response data = none ↔ data.length < 8)
    ∧ (∀ data : List Nat,
        decode_outch_status data = .error .valueError ↔ data.length < 8) := by
  refine ⟨?_, ?_, ?_⟩ <;> intro data
  · simp only [decode_vsw_state_response, NMEA2K_MANUFACTURER_LUMITEC,
      NMEA2K_INDUSTRY_MARINE]
    split_ifs with h1 h2
    · simp [h1]
    · exact iff_of_true rfl (Or.inr (by tauto))
    · push_neg at h2
      refine iff_of_false (by simp) ?_
      push_neg
      exact ⟨by omega, h2⟩
  · simp only [decode_enumerate_response]
    split_ifs with h1
    · simp [h1]
    · simp [h1]
  · simp only [decode_outch_status]
    split_ifs with h1
    · simp [h1]
    · simp [h1]

/-- Claim C1 counterexample: a Level 1 session targeting device 5
receives a PGN 127501 binary-status frame from source 6; the frame is not
an enumerate response, yet the binary cache changes and a binary callback
fires. -/
theorem level1_binary_status_bypasses_filter :
    (level1HandleMessage 5 SessionState.init
        ⟨(3 <<< 26) ||| (127501 <<< 8) ||| 6, [2, 5, 0, 0, 0, 0, 0, 0]⟩).1.binary_switch_states
      ≠ SessionState.init.binary_switch_states
    ∧ (level1HandleMessage 5 SessionState.init
        ⟨(3 <<< 26) ||| (127501 <<< 8) ||| 6, [2, 5, 0, 0, 0, 0, 0, 0]⟩).2 ≠ [] := by
  refine ⟨by decide, by decide⟩

/-- Claim C1 amended: for the shared base handler under any subclass hook,
a frame from a non-target source that is not an enumerate response is
dropped (caches unchanged, no callbacks), and enumerate-response frames
are handled exactly as in a broadcast session; a Level 1 session
additionally processes PGN 127501 frames regardless of source and drops
every other filtered frame. -/
theorem source_filter_drops_non_target_frames :
    (∀ (hook : Hook) (addr : Nat) (st : SessionState) (msg : CanMsg),
        addr ≠ 0xFF → srcAddr msg.id ≠ addr →
        ¬(normPgn msg.id = PGN_PROPRIETARY_SINGLE_FRAME ∧ msg.data.length ≥ 3 ∧
            msg.data.getD 2 0 = 129) →
        handleMessageImpl hook addr st msg = (st, []))
    ∧ (∀ (addr : Nat) (st : SessionState) (msg : CanMsg),
        addr ≠ 0xFF → srcAddr msg.id ≠ addr →
        ¬(normPgn msg.id = PGN_PROPRIETARY_SINGLE_FRAME ∧ msg.data.length ≥ 3 ∧
            msg.data.getD 2 0 = 129) →
        rawPgn msg.id ≠ PGN_BINARY_SWITCH_STATUS →
        level1HandleMessage addr st msg = (st, []))
    ∧ (∀ (hook : Hook) (addr : Nat) (st : SessionState) (msg : CanMsg),
        normPgn msg.id = PGN_PROPRIETARY_SINGLE_FRAME → msg.data.length ≥ 3 →
        msg.data.getD 2 0 = 129 →
        handleMessageImpl hook addr st msg = handleMessageImpl hook 0xFF st msg) := by
  have base : ∀ (hook : Hook) (addr : Nat) (st : SessionState) (msg : CanMsg),
      addr ≠ 0xFF → srcAddr msg.id ≠ addr →
      ¬(normPgn msg.id = PGN_PROPRIETARY_SINGLE_FRAME ∧ msg.data.length ≥ 3 ∧
          msg.data.getD 2 0 = 129) →
      handleMessageImpl hook addr st msg = (st, []) := by
    intro hook addr st msg h1 h2 h3
    unfold handleMessageImpl
    rw [if_pos ⟨h1, h2⟩]
    by_cases hp : normPgn msg.id = PGN_PROPRIETARY_SINGLE_FRAME ∧ msg.data.length ≥ 3
    · rw [if_pos hp, if_pos (fun he => h3 ⟨hp.1, hp.2, he⟩)]
    · rw [if_neg hp]
  refine ⟨base, ?_, ?_⟩
  · intro addr st msg h1 h2 h3 h4
    unfold level1HandleMessage
    rw [base baseHook addr st msg h1 h2 h3, if_neg h4]
  · intro hook addr st msg he1 he2 he3
    unfold handleMessageImpl
    rw [if_neg (by simp : ¬((0xFF:Nat) ≠ 0xFF ∧ srcAddr msg.id ≠ 0xFF))]
    by_cases hf : addr ≠ 0xFF ∧ srcAddr msg.id ≠ addr
    · rw [if_pos hf, if_pos ⟨he1, he2⟩,
        if_neg (fun h => h he3)]
    · rw [if_neg hf]

theorem source_filter_drops_non_target_frames_witness :
    handleMessageImpl baseHook 5 SessionState.init
        ⟨(3 <<< 26) ||| (0xEF <<< 16) ||| (0xFF <<< 8) ||| 6, [232, 157, 2, 1, 17, 5, 6, 200]⟩
      = (SessionState.init, []) :=
  source_filter_drops_non_target_frames.1 baseHook 5 SessionState.init
    ⟨(3 <<< 26) ||| (0xEF <<< 16) ||| (0xFF <<< 8) ||| 6, [232, 157, 2, 1, 17, 5, 6, 200]⟩
    (by decide) (by decide) (by decide)

/-- Claim C4 counterexample: encode_vsw_hsb with hue 300 produces the
bytes of hue 44 (300 mod 256), not the bytes of the nearest bound 255,
so the hue parameter is masked rather than clamped. -/
theorem encode_vsw_hsb_hue_not_clamped :
    encode_vsw_hsb 1 8 300 0 0 ≠ encode_vsw_hsb 1 8 255 0 0
    ∧ encode_vsw_hsb 1 8 300 0 0 = .ok [232, 157, 3, 8, 1, 44, 0, 0] := by
  refine ⟨by decide, rfl⟩

/-- Claim C4 amended: the PLI channel encoders clamp channel, clan and
transition to their nearest bounds (so any out-of-range value encodes
like the bound), while encode_vsw_hsb reduces switch id, hue, saturation
and brightness modulo 256 (masking, not clamping). -/
theorem pli_clamped_vsw_masked :
    (∀ (prop_id : Nat) (chan clan trans byte6 byte7 : Int),
        pack_pli_common prop_id chan clan trans byte6 byte7
          = pack_pli_common prop_id (max 0 (min 4 chan)) (max 0 (min 63 clan))
              (max 0 (min 7 trans)) byte6 byte7)
    ∧ (∀ (switch_id : Int) (action : Nat) (hue saturation brightness : Int),
        encode_vsw_hsb switch_id action hue saturation brightness
          = encode_vsw_hsb (switch_id % 256) action (hue % 256) (saturation % 256)
              (brightness % 256)) := by
  constructor
  · intro prop_id chan clan trans byte6 byte7
    simp only [pack_pli_common]
    rw [show max 0 (min 4 (max 0 (min 4 chan))) = max 0 (min 4 chan) by omega,
      show max 0 (min 63 (max 0 (min 63 clan))) = max 0 (min 63 clan) by omega,
      show max 0 (min 7 (max 0 (min 7 trans))) = max 0 (min 7 trans) by omega]
  · intro switch_id action hue saturation brightness
    simp only [encode_vsw_hsb, mask8, Int.emod_emod_of_dvd _ dvd_rfl]

/-- Claim C10: positions the switch_states list does not reach are encoded
as tri-state 0 (the zero-initialised field is never written), and entries
past index 27 are ignored. -/
theorem binary_switch_control_fill_and_truncate :
    (∀ (bank : Nat) (states : List Nat) (i : Nat), states.length ≤ i → i < 28 →
        triStateAt (encode_binary_switch_control bank states) i = 0)
    ∧ (∀ (bank : Nat) (states : List Nat),
        encode_binary_switch_control bank states
          = encode_binary_switch_control bank (states.take 28)) := by
  constructor
  · intro bank states i hlen hi
    rw [triStateAt_encode bank states i hi, if_neg (by omega)]
  · intro bank states
    have hlen : (states.take 28).length = min 28 states.length := by
      rw [List.length_take]
    simp only [encode_binary_switch_control, hlen, ← Nat.min_assoc, Nat.min_self]
    have hfold : ∀ (data : Nat → Nat),
        (List.range (min 28 states.length)).foldl (bscWrite states) data
          = (List.range (min 28 states.length)).foldl (bscWrite (states.take 28)) data := by
      intro data
      apply List.foldl_ext
      intro acc i hi
      have hi28 : i < 28 := by
        have := List.mem_range.mp hi
        omega
      unfold bscWrite
      rw [show (states.take 28).getD i 0 = states.getD i 0 by
        rw [List.getD_eq_getElem?_getD, List.getD_eq_getElem?_getD, List.getElem?_take]
        simp [hi28]]
    rw [hfold]

theorem binary_switch_control_fill_and_truncate_witness :
    triStateAt (encode_binary_switch_control 2 [1]) 5 = 0
    ∧ encode_binary_switch_control 7 (List.replicate 30 1)
        = encode_binary_switch_control 7 ((List.replicate 30 1).take 28) :=
  ⟨binary_switch_control_fill_and_truncate.1 2 [1] 5 (by decide) (by decide),
   binary_switch_control_fill_and_truncate.2 7 (List.replicate 30 1)⟩

/-- Claim C2: set_switch_bank always raises TypeError, because its call
into send_binary_switch_control passes a priority argument that the
method does not accept; no frame is ever encoded or sent. -/
theorem set_switch_bank_always_raises_type_error :
    ∀ (bank : Nat) (switches : List (Nat × Option Bool)) (priority : Nat),
      set_switch_bank bank switches priority = .error .typeError :=
  fun _ _ _ => rfl

/-- Claim C3: delta_brightness passes its range validation for delta -10
but then crashes inside the encoder with struct.error; out-of-range
deltas raise the documented ValueError and non-negative in-range deltas
encode and send fine. -/
theorem delta_brightness_crashes_on_negative_delta :
    delta_brightness 0 (-10) = .error .structError
    ∧ delta_brightness 0 130 = .error .valueError
    ∧ delta_brightness 0 (-129) = .error .valueError
    ∧ delta_brightness 0 10 = .ok [232, 157, 6, 5, 0, 10, 255, 255] :=
  ⟨rfl, rfl, rfl, rfl⟩

/-- Claim C5: encode_vsw_delta_brightness raises struct.error for delta -1,
inside its documented range -128..127, because the clamped negative delta
reaches struct.pack format B without a two of-complement conversion; a
non-negative delta yields the 8-byte frame. -/
theorem encode_vsw_delta_brightness_fails_in_documented_range :
    encode_vsw_delta_brightness 0 (-1) = .error .structError
    ∧ encode_vsw_delta_brightness 0 1 = .ok [232, 157, 6, 5, 0, 1, 255, 255] :=
  ⟨rfl, rfl⟩

/-- Claim C8 counterexample: byte 1 of the encoded frame is 0x11, not the
0x05 stated by the claim. -/
theorem binary_switch_control_byte1_is_not_0x05 :
    (encode_binary_switch_control 1 ([1, 0, 1, 0] ++ List.replicate 24 3)).getD 1 0
      ≠ 0x05 := by
  decide

/-- Claim C8 amended: bank 1 with states 1,0,1,0 then 24 times no-change
gives byte 0 equal 1 and byte 1 equal 0b00010001 = 0x11: switch 0 is 1 at
bits 0-1, switch 1 is 0 at bits 2-3, switch 2 is 1 at bits 4-5 and
switch 3 is 0 at bits 6-7. -/
theorem binary_switch_control_concrete_bytes :
    (encode_binary_switch_control 1 ([1, 0, 1, 0] ++ List.replicate 24 3)).getD 0 0 = 1
    ∧ (encode_binary_switch_control 1 ([1, 0, 1, 0] ++ List.replicate 24 3)).getD 1 0
        = 0x11
    ∧ triStateAt (encode_binary_switch_control 1 ([1, 0, 1, 0] ++ List.replicate 24 3)) 0 = 1
    ∧ triStateAt (encode_binary_switch_control 1 ([1, 0, 1, 0] ++ List.replicate 24 3)) 1 = 0
    ∧ triStateAt (encode_binary_switch_control 1 ([1, 0, 1, 0] ++ List.replicate 24 3)) 2 = 1
    ∧ triStateAt (encode_binary_switch_control 1 ([1, 0, 1, 0] ++ List.replicate 24 3)) 3 = 0 := by
  decide

/-- Claim C9: dispatching one enumerate response from source 0x21 leaves
exactly one discovered-devices entry keyed 0x21; a second response from
the same source with another device id replaces that entry wholesale with
the decode of the second payload. -/
theorem discovered_devices_replaced_wholesale :
    (handleMessageImpl baseHook 0xFF SessionState.init
        ⟨(3 <<< 26) ||| (0xEF <<< 16) ||| (0xFF <<< 8) ||| 0x21,
         [232, 157, 129, 1, 0, 0, 0x24, 1]⟩).1.discovered_devices
      = [(0x21, ⟨0x21, ⟨1, 2, 4, true⟩⟩)]
    ∧ (handleMessageImpl baseHook 0xFF
        (handleMessageImpl baseHook 0xFF SessionState.init
          ⟨(3 <<< 26) ||| (0xEF <<< 16) ||| (0xFF <<< 8) ||| 0x21,
           [232, 157, 129, 1, 0, 0, 0x24, 1]⟩).1
        ⟨(3 <<< 26) ||| (0xEF <<< 16) ||| (0xFF <<< 8) ||| 0x21,
         [232, 157, 129, 2, 0, 0, 0x24, 1]⟩).1.discovered_devices
      = [(0x21, ⟨0x21, ⟨2, 2, 4, true⟩⟩)]
    ∧ decode_enumerate_response [232, 157, 129, 2, 0, 0, 0x24, 1]
        = some ⟨2, 2, 4, true⟩ := by
  refine ⟨by decide, by decide, by decide⟩

end PocoCan
